import Mathlib

/-!
Shallow embedding of `src/pages/admin/chat.tsx` (the `ChatComponent` React
component): its local state, the Firestore-backed message store it talks to,
the realtime query it subscribes to, and the submission handler
`addOrUpdateMessage` together with the edit-initiation helper `editMessage`.

External collaborators are modelled through their public contracts:
- the auth context yields an optional current-user identifier (the `uid`);
- the document store supports adding a document, updating a document by id,
  and running the query `where userId == uid, orderBy createdAt asc`;
- `serverTimestamp()` is a sentinel resolved by the store at commit time,
  modelled by a logical server clock carried in the store state;
- the remote completion endpoint is driven by an environment value recording
  whether each awaited operation of one handler invocation succeeds.
-/

namespace ChatApp

/-- Model of `Date.toLocaleString()`: an abstract rendering of a timestamp as
a display string. The component only ever passes the result through to state;
no claim inspects the text itself. -/
def toLocaleString (t : Nat) : String := toString t

/-- The `ChatMessage` interface of the source: `id` is optional (absent =
`undefined`), `createdAt` is `string | null` (`none` = `null`), and
`updatedAt` is an optional `string | null` field, so `none` = field absent
and `some none` = field present with value `null`. -/
structure ChatMessage where
  id : Option String
  role : String
  content : String
  createdAt : Option String
  updatedAt : Option (Option String)
deriving DecidableEq

/-- A document of the `messages` Firestore collection, with resolved server
timestamps as `Option Nat` (`none` = a pending server timestamp, observed as
`null` through a snapshot). -/
structure StoreDoc where
  id : String
  role : String
  content : String
  userId : String
  createdAt : Option Nat
  updatedAt : Option Nat
deriving DecidableEq

/-- The document store: its documents in insertion order, its server clock
(used to resolve `serverTimestamp()` at commit time) and the next fresh
document id. -/
structure Store where
  docs : List StoreDoc
  now : Nat
  nextId : Nat
deriving DecidableEq

/-- The component's local state: `prompt`, `messages`, `loading`, `editId`. -/
structure ComponentState where
  prompt : String
  messages : List ChatMessage
  loading : Bool
  editId : Option String
deriving DecidableEq

/-- A timestamp value as written by the component. The source only ever
writes `serverTimestamp()`. -/
inductive TimestampValue where
  | server
deriving DecidableEq

/-- The field object passed to `addDoc`. -/
structure AddData where
  role : String
  content : String
  userId : String
  createdAt : TimestampValue
  updatedAt : TimestampValue
deriving DecidableEq

/-- The field object passed to `updateDoc`: only `content` and `updatedAt`. -/
structure UpdateData where
  content : String
  updatedAt : TimestampValue
deriving DecidableEq

/-- The JSON body of the remote call:
`JSON.stringify({ prompt, messages: messages.slice(-5) })`. -/
structure RequestBody where
  prompt : String
  messages : List ChatMessage
deriving DecidableEq

/-- One observable side effect of a handler invocation, in program order. -/
inductive Effect where
  | setLoading (b : Bool)
  | storeAdd (w : AddData)
  | storeUpdate (id : String) (u : UpdateData)
  | httpPost (method : String) (url : String) (body : RequestBody)
  | consoleError
deriving DecidableEq

/-- Outcome of `fetch` + `response.json()` + `data.choices`: `ok choices`
carries the `message.content` of each entry of `choices`; `fail` covers a
network rejection, a non-JSON body, or a missing `choices` field. An `ok []`
outcome makes `data.choices[0].message` throw, which the handler catches. -/
inductive FetchOutcome where
  | ok (choices : List String)
  | fail
deriving DecidableEq

/-- Resolution of the awaited operations of one handler invocation. -/
structure Env where
  userWriteOk : Bool
  fetch : FetchOutcome
  assistantWriteOk : Bool
deriving DecidableEq

/-- JS `string.trim()`: strip leading and trailing whitespace. -/
def jsTrim (s : String) : String :=
  ⟨((s.data.dropWhile Char.isWhitespace).reverse.dropWhile Char.isWhitespace).reverse⟩

/-- JS `list.slice(-n)`: the at most `n` trailing elements. -/
def takeLast (n : Nat) (l : List α) : List α := l.drop (l.length - n)

/-- Commit an `addDoc`: append a document with a fresh id, resolving both
`serverTimestamp()` sentinels to the store's current server time. -/
def Store.applyAdd (s : Store) (role content userId : String) : Store :=
  { docs := s.docs ++ [⟨toString s.nextId, role, content, userId, some s.now, some s.now⟩],
    now := s.now + 1,
    nextId := s.nextId + 1 }

/-- Per-document effect of `updateDoc(messageRef, { content, updatedAt:
serverTimestamp() })`: the targeted document gets the new `content` and a
server `updatedAt`; every other document is untouched. -/
def updateFn (eid content : String) (now : Nat) (d : StoreDoc) : StoreDoc :=
  if d.id = eid then { d with content := content, updatedAt := some now } else d

/-- Commit an `updateDoc` on document `eid`: rewrite its `content` and
resolve its `updatedAt` sentinel to the current server time. -/
def Store.applyUpdate (s : Store) (eid content : String) : Store :=
  { s with
    docs := s.docs.map (updateFn eid content s.now),
    now := s.now + 1 }

/-- Field list of `JSON.stringify` applied to a local `ChatMessage`: an
absent (`undefined`) optional field is omitted, a `null` field is kept. -/
def chatMessageJsonFields (m : ChatMessage) : List String :=
  (match m.id with | some _ => ["id"] | none => [])
    ++ ["role", "content", "createdAt"]
    ++ (match m.updatedAt with | some _ => ["updatedAt"] | none => [])

/-- The snapshot callback's per-document mapping (lines 32-41 of the source):
`{ id: doc.id, role, content, createdAt: data.createdAt ?
data.createdAt.toDate().toLocaleString() : null, updatedAt: ... }`. -/
def toChatMessage (d : StoreDoc) : ChatMessage :=
  { id := some d.id,
    role := d.role,
    content := d.content,
    createdAt := d.createdAt.map toLocaleString,
    updatedAt := some (d.updatedAt.map toLocaleString) }

/-- The full list rebuild performed by the snapshot callback. -/
def snapshotToMessages (docs : List StoreDoc) : List ChatMessage :=
  docs.map toChatMessage

/-- The ordering key of the query `orderBy('createdAt', 'asc')` on resolved
timestamps; a pending (`null`) timestamp sorts first. -/
def tsLe : Option Nat → Option Nat → Prop
  | none, _ => True
  | some _, none => False
  | some a, some b => a ≤ b

instance : DecidableRel tsLe := fun a b => by
  cases a <;> cases b <;> simp [tsLe] <;> infer_instance

/-- Strict version of `tsLe`. -/
def tsLt : Option Nat → Option Nat → Prop
  | _, none => False
  | none, some _ => True
  | some a, some b => a < b

instance : DecidableRel tsLt := fun a b => by
  cases a <;> cases b <;> simp [tsLt] <;> infer_instance

/-- Document comparison used by the store to order the query's results. -/
def docLe (a b : StoreDoc) : Prop := tsLe a.createdAt b.createdAt

instance : DecidableRel docLe := fun a b => by
  unfold docLe; infer_instance

instance : IsTotal StoreDoc docLe where
  total a b := by
    rcases ha : a.createdAt with _ | x <;> rcases hb : b.createdAt with _ | y
    · exact Or.inl (by simp [docLe, ha, hb, tsLe])
    · exact Or.inl (by simp [docLe, ha, hb, tsLe])
    · exact Or.inr (by simp [docLe, ha, hb, tsLe])
    · rcases Nat.le_total x y with h | h
      · exact Or.inl (by simp [docLe, ha, hb, tsLe, h])
      · exact Or.inr (by simp [docLe, ha, hb, tsLe, h])

instance : IsTrans StoreDoc docLe where
  trans a b c hab hbc := by
    rcases ha : a.createdAt with _ | x <;> rcases hb : b.createdAt with _ | y <;>
      rcases hc : c.createdAt with _ | z <;>
      simp_all [docLe, tsLe]
    exact le_trans hab hbc

/-- The store-side semantics of the subscription's query
`where('userId', '==', uid), orderBy('createdAt', 'asc')`: filter the
collection, sort by `createdAt` ascending. Every snapshot delivered to the
callback lists its documents in this order, whatever the underlying
insertion order of the collection. -/
def runQuery (s : Store) (uid : String) : List StoreDoc :=
  List.insertionSort docLe (s.docs.filter (fun d => d.userId == uid))

/-- The message list the snapshot callback stores into component state. -/
def displayedMessages (s : Store) (uid : String) : List ChatMessage :=
  snapshotToMessages (runQuery s uid)

/-- The creation times of the displayed entries, in display order. -/
def displayedTimes (s : Store) (uid : String) : List (Option Nat) :=
  (runQuery s uid).map StoreDoc.createdAt

/-- The `editMessage` handler: `setPrompt(message.content);
setEditId(message.id || null)`. The JS `||` turns both an absent id and an
empty-string id into `null`. -/
def editMessage (m : ChatMessage) (st : ComponentState) : ComponentState :=
  { st with
    prompt := m.content,
    editId := match m.id with
      | none => none
      | some s => if s = "" then none else some s }

/-- Continuation of `addOrUpdateMessage` after the user-message write
succeeded: the `fetch('/api/chat', ...)` call with body
`{ prompt, messages: messages.slice(-5) }`, the `choices[0]` extraction, the
assistant `addDoc`, `setPrompt('')`, the `catch` logging and the `finally`
reset of `loading`. -/
def afterUserWrite (uid : String) (st : ComponentState) (store : Store) (env : Env)
    (tr : List Effect) : ComponentState × Store × List Effect :=
  let body : RequestBody := { prompt := st.prompt, messages := takeLast 5 st.messages }
  let tr1 := tr ++ [Effect.httpPost "POST" "/api/chat" body]
  match env.fetch with
  | .fail =>
      ({ st with loading := false }, store,
        tr1 ++ [Effect.consoleError, Effect.setLoading false])
  | .ok [] =>
      ({ st with loading := false }, store,
        tr1 ++ [Effect.consoleError, Effect.setLoading false])
  | .ok (c :: _) =>
      let addEff := Effect.storeAdd ⟨"assistant", c, uid, .server, .server⟩
      if env.assistantWriteOk then
        ({ st with prompt := "", loading := false }, store.applyAdd "assistant" c uid,
          tr1 ++ [addEff, Effect.setLoading false])
      else
        ({ st with loading := false }, store,
          tr1 ++ [addEff, Effect.consoleError, Effect.setLoading false])

/-- The `addOrUpdateMessage` handler (lines 53-107 of the source), as a
function of the current user, the component state, the store, and the
resolution of its awaited operations. It returns the final component state,
the final store, and the trace of observable effects in program order. -/
def addOrUpdateMessage (user : Option String) (st : ComponentState) (store : Store)
    (env : Env) : ComponentState × Store × List Effect :=
  match user with
  | none => (st, store, [])
  | some uid =>
    if jsTrim st.prompt = "" then (st, store, [])
    else
      let st1 : ComponentState := { st with loading := true }
      match st.editId with
      | some eid =>
        let writeEff := Effect.storeUpdate eid ⟨st.prompt, .server⟩
        if env.userWriteOk then
          afterUserWrite uid { st1 with editId := none } (store.applyUpdate eid st.prompt)
            env [Effect.setLoading true, writeEff]
        else
          ({ st1 with loading := false }, store,
            [Effect.setLoading true, writeEff, Effect.consoleError, Effect.setLoading false])
      | none =>
        let writeEff := Effect.storeAdd ⟨"user", st.prompt, uid, .server, .server⟩
        if env.userWriteOk then
          afterUserWrite uid st1 (store.applyAdd "user" st.prompt uid)
            env [Effect.setLoading true, writeEff]
        else
          ({ st1 with loading := false }, store,
            [Effect.setLoading true, writeEff, Effect.consoleError, Effect.setLoading false])

/-- Classifier: a write of the user's message (the `updateDoc` of the edit
path or the first `addDoc` of the create path). -/
def Effect.isUserWrite : Effect → Bool
  | .storeUpdate _ _ => true
  | .storeAdd w => w.role == "user"
  | _ => false

/-- Classifier: the `addDoc` of an assistant reply. -/
def Effect.isAssistantAdd : Effect → Bool
  | .storeAdd w => w.role == "assistant"
  | _ => false

/-- Classifier: any store write. -/
def Effect.isStoreWrite : Effect → Bool
  | .storeAdd _ => true
  | .storeUpdate _ _ => true
  | _ => false

/-- Classifier: an `updateDoc`. -/
def Effect.isStoreUpdate : Effect → Bool
  | .storeUpdate _ _ => true
  | _ => false

/-- Classifier: an outbound HTTP call. -/
def Effect.isHttp : Effect → Bool
  | .httpPost _ _ _ => true
  | _ => false

/-- Classifier: a `setLoading` state change. -/
def Effect.isSetLoading : Effect → Bool
  | .setLoading _ => true
  | _ => false

/-- Number of effects of a trace matching a classifier. -/
def countE (p : Effect → Bool) (tr : List Effect) : Nat := (tr.filter p).length

/-- Result of running the component's mount effect: the `onSnapshot`
listeners active afterwards (identified by the uid they watch), and the
cleanup React registered for the effect — `some uid` would mean "on unmount
or dependency change, unsubscribe the listener on `uid`", `none` means React
has nothing to run. -/
structure EffectResult where
  listeners : List String
  cleanup : Option String
deriving DecidableEq

/-- The source's `useEffect(() => { fetchMessages(); }, [user])`: the effect
callback invokes the async `fetchMessages`, which registers an `onSnapshot`
listener when a user is present and resolves its Promise with the
`() => unsubscribe()` closure. The effect callback itself is a block-bodied
arrow that returns `undefined` — the Promise (and the closure inside it)
never reaches React — so the registered cleanup is `none` in every case. -/
def chatEffect (user : Option String) (ls : List String) : EffectResult :=
  match user with
  | none => ⟨ls, none⟩
  | some uid => ⟨ls ++ [uid], none⟩

/-- React's teardown step on unmount or dependency change: run the
registered cleanup if there is one (unsubscribing the listener it names),
otherwise leave every listener active. -/
def applyCleanup (r : EffectResult) : List String :=
  match r.cleanup with
  | none => r.listeners
  | some uid => r.listeners.erase uid

/-- Listeners still active after mounting the component with the given user
and then unmounting it. -/
def listenersAfterMountUnmount (user : Option String) : List String :=
  applyCleanup (chatEffect user [])

/-- Listeners active after mounting with user `u1` and then switching the
auth context to user `u2` (the `[user]` dependency changes: React runs the
registered cleanup, then the effect again). -/
def listenersAfterUserChange (u1 u2 : Option String) : List String :=
  (chatEffect u2 (applyCleanup (chatEffect u1 []))).listeners

/-- A snapshot fired for `uid` reaches `setMessages` exactly when a listener
on `uid` is still active. -/
def snapshotReachesState (ls : List String) (uid : String) : Bool :=
  ls.contains uid

/-- C2: with an empty-after-trim draft or an absent user, `addOrUpdateMessage`
is a no-op: the component state and the store are returned unchanged and the
effect trace is empty (zero store writes, zero HTTP calls, zero state
updates). -/
theorem addOrUpdateMessage_precondition_noop (user : Option String)
    (st : ComponentState) (store : Store) (env : Env)
    (h : jsTrim st.prompt = "" ∨ user = none) :
    addOrUpdateMessage user st store env = (st, store, []) := by
  cases user with
  | none => rfl
  | some uid =>
    rcases h with h | h
    · simp [addOrUpdateMessage, h]
    · exact absurd h (by simp)

/-- Witness for C2: a whitespace-only draft with a present user leaves state,
store and trace untouched. -/
theorem addOrUpdateMessage_precondition_noop_witness :
    addOrUpdateMessage (some "u1") ⟨"   ", [], false, none⟩ ⟨[], 0, 0⟩
        ⟨true, .ok ["Hi"], true⟩ =
      (⟨"   ", [], false, none⟩, ⟨[], 0, 0⟩, []) :=
  addOrUpdateMessage_precondition_noop (some "u1") ⟨"   ", [], false, none⟩ ⟨[], 0, 0⟩
    ⟨true, .ok ["Hi"], true⟩ (Or.inl (by decide))

/-- C1: with a non-empty trimmed draft and a present user, the handler issues
exactly one user-message write — an `addDoc` of `{role: 'user', content:
prompt, userId: uid, createdAt/updatedAt: serverTimestamp()}` when not
editing, an `updateDoc` of the `editId` record with the draft content and a
server `updatedAt` when editing — and, when the remote call succeeds with a
first choice `c`, exactly one further `addDoc` of `{role: 'assistant',
content: c, userId: uid, createdAt/updatedAt: serverTimestamp()}`; no
assistant write is issued otherwise. -/
theorem addOrUpdateMessage_write_pattern (uid : String) (st : ComponentState)
    (store : Store) (env : Env) (h : jsTrim st.prompt ≠ "") :
    countE Effect.isUserWrite (addOrUpdateMessage (some uid) st store env).2.2 = 1
    ∧ (st.editId = none →
        Effect.storeAdd ⟨"user", st.prompt, uid, .server, .server⟩
          ∈ (addOrUpdateMessage (some uid) st store env).2.2)
    ∧ (∀ eid, st.editId = some eid →
        Effect.storeUpdate eid ⟨st.prompt, .server⟩
          ∈ (addOrUpdateMessage (some uid) st store env).2.2)
    ∧ (∀ c cs, env.userWriteOk = true → env.fetch = .ok (c :: cs) →
        countE Effect.isAssistantAdd (addOrUpdateMessage (some uid) st store env).2.2 = 1
        ∧ Effect.storeAdd ⟨"assistant", c, uid, .server, .server⟩
            ∈ (addOrUpdateMessage (some uid) st store env).2.2)
    ∧ ((env.userWriteOk = false ∨ env.fetch = .fail ∨ env.fetch = .ok []) →
        countE Effect.isAssistantAdd (addOrUpdateMessage (some uid) st store env).2.2 = 0) := by
  rcases hedit : st.editId with _ | eid <;>
    rcases hw : env.userWriteOk <;>
    rcases hf : env.fetch with ⟨_ | ⟨c, cs⟩⟩ | _ <;>
    rcases ha : env.assistantWriteOk <;>
    simp [addOrUpdateMessage, afterUserWrite, h, hedit, hw, hf, ha, countE,
      Effect.isUserWrite, Effect.isAssistantAdd, List.filter]

/-- Witness for C1: the scenario of the spec — user `"u1"`, empty history,
draft `"Hello"`, reply `"Hi there"` — issues one user write and one
assistant write. -/
theorem addOrUpdateMessage_write_pattern_witness :
    countE Effect.isUserWrite
        (addOrUpdateMessage (some "u1") ⟨"Hello", [], false, none⟩ ⟨[], 0, 0⟩
          ⟨true, .ok ["Hi there"], true⟩).2.2 = 1
    ∧ countE Effect.isAssistantAdd
        (addOrUpdateMessage (some "u1") ⟨"Hello", [], false, none⟩ ⟨[], 0, 0⟩
          ⟨true, .ok ["Hi there"], true⟩).2.2 = 1 :=
  ⟨(addOrUpdateMessage_write_pattern "u1" ⟨"Hello", [], false, none⟩ ⟨[], 0, 0⟩
      ⟨true, .ok ["Hi there"], true⟩ (by decide)).1,
   ((addOrUpdateMessage_write_pattern "u1" ⟨"Hello", [], false, none⟩ ⟨[], 0, 0⟩
      ⟨true, .ok ["Hi there"], true⟩ (by decide)).2.2.2.1 "Hi there" [] rfl rfl).1⟩

/-- C5: whenever the precondition passes, the invocation's effect trace
starts with `setLoading true`, ends with `setLoading false`, contains no
other loading transition, and the resulting state has `loading = false`,
whatever the outcome of the store writes and the remote call. -/
theorem addOrUpdateMessage_loading (uid : String) (st : ComponentState)
    (store : Store) (env : Env) (h : jsTrim st.prompt ≠ "") :
    (addOrUpdateMessage (some uid) st store env).2.2.head? =
        some (Effect.setLoading true)
    ∧ (addOrUpdateMessage (some uid) st store env).2.2.getLast? =
        some (Effect.setLoading false)
    ∧ countE Effect.isSetLoading (addOrUpdateMessage (some uid) st store env).2.2 = 2
    ∧ (addOrUpdateMessage (some uid) st store env).1.loading = false := by
  rcases hedit : st.editId with _ | eid <;>
    rcases hw : env.userWriteOk <;>
    rcases hf : env.fetch with ⟨_ | ⟨c, cs⟩⟩ | _ <;>
    rcases ha : env.assistantWriteOk <;>
    simp [addOrUpdateMessage, afterUserWrite, h, hedit, hw, hf, ha, countE,
      Effect.isSetLoading, List.filter, List.getLast?]

/-- Witness for C5: a failing remote call still starts with `setLoading true`
and ends with `setLoading false`, leaving `loading = false`. -/
theorem addOrUpdateMessage_loading_witness :
    (addOrUpdateMessage (some "u1") ⟨"Hello", [], false, none⟩ ⟨[], 0, 0⟩
        ⟨true, .fail, true⟩).2.2.head? = some (Effect.setLoading true)
    ∧ (addOrUpdateMessage (some "u1") ⟨"Hello", [], false, none⟩ ⟨[], 0, 0⟩
        ⟨true, .fail, true⟩).2.2.getLast? = some (Effect.setLoading false)
    ∧ countE Effect.isSetLoading
        (addOrUpdateMessage (some "u1") ⟨"Hello", [], false, none⟩ ⟨[], 0, 0⟩
          ⟨true, .fail, true⟩).2.2 = 2
    ∧ (addOrUpdateMessage (some "u1") ⟨"Hello", [], false, none⟩ ⟨[], 0, 0⟩
        ⟨true, .fail, true⟩).1.loading = false :=
  addOrUpdateMessage_loading "u1" ⟨"Hello", [], false, none⟩ ⟨[], 0, 0⟩
    ⟨true, .fail, true⟩ (by decide)

/-- Predicate on the environment: some awaited step of the `try` block of
the handler throws (a failed user write, a failed or malformed remote call,
or a failed assistant write). -/
def failureHappens (env : Env) : Bool :=
  !env.userWriteOk ||
    (match env.fetch with
     | .fail => true
     | .ok [] => true
     | .ok (_ :: _) => !env.assistantWriteOk)

/-- Counterexample to C3 as stated: an edit-mode invocation (editId
`"m1"`) whose `updateDoc` succeeds and whose remote call then fails does log
the error, but `editId` ends as `none`, not as the `some "m1"` it held at the
start of the invocation — `setEditId(null)` ran inside the `try` before the
failure and is not undone. -/
theorem addOrUpdateMessage_editId_not_preserved :
    Effect.consoleError ∈
      (addOrUpdateMessage (some "u1") ⟨"hi", [], false, some "m1"⟩
        ⟨[⟨"m1", "user", "old", "u1", some 0, some 0⟩], 5, 1⟩
        ⟨true, .fail, true⟩).2.2
    ∧ (⟨"hi", [], false, some "m1"⟩ : ComponentState).editId = some "m1"
    ∧ (addOrUpdateMessage (some "u1") ⟨"hi", [], false, some "m1"⟩
        ⟨[⟨"m1", "user", "old", "u1", some 0, some 0⟩], 5, 1⟩
        ⟨true, .fail, true⟩).1.editId = none := by decide

/-- C3 as amended: on any failure in steps 2-4, the error is logged and the
draft text is left exactly as it was; the edit marker is left as it was when
the failure strikes the user-message write itself, but when an edit-mode
update succeeds before a later failure, the marker has already been cleared
to `null` and is not restored. -/
theorem addOrUpdateMessage_failure_state (uid : String) (st : ComponentState)
    (store : Store) (env : Env) (h : jsTrim st.prompt ≠ "")
    (hfail : failureHappens env = true) :
    Effect.consoleError ∈ (addOrUpdateMessage (some uid) st store env).2.2
    ∧ (addOrUpdateMessage (some uid) st store env).1.prompt = st.prompt
    ∧ (addOrUpdateMessage (some uid) st store env).1.editId =
        (if env.userWriteOk = true then none else st.editId) := by
  rcases hedit : st.editId with _ | eid <;>
    rcases hw : env.userWriteOk <;>
    rcases hf : env.fetch with ⟨_ | ⟨c, cs⟩⟩ | _ <;>
    rcases ha : env.assistantWriteOk <;>
    simp_all [addOrUpdateMessage, afterUserWrite, failureHappens]

/-- Witness for the amended C3: an edit-mode invocation whose `updateDoc`
itself fails keeps both the draft and the edit marker. -/
theorem addOrUpdateMessage_failure_state_witness :
    Effect.consoleError ∈
      (addOrUpdateMessage (some "u1") ⟨"hi", [], false, some "m1"⟩ ⟨[], 0, 0⟩
        ⟨false, .ok ["x"], true⟩).2.2
    ∧ (addOrUpdateMessage (some "u1") ⟨"hi", [], false, some "m1"⟩ ⟨[], 0, 0⟩
        ⟨false, .ok ["x"], true⟩).1.prompt =
        (⟨"hi", [], false, some "m1"⟩ : ComponentState).prompt
    ∧ (addOrUpdateMessage (some "u1") ⟨"hi", [], false, some "m1"⟩ ⟨[], 0, 0⟩
        ⟨false, .ok ["x"], true⟩).1.editId =
        (if (⟨false, .ok ["x"], true⟩ : Env).userWriteOk = true then none
         else (⟨"hi", [], false, some "m1"⟩ : ComponentState).editId) :=
  addOrUpdateMessage_failure_state "u1" ⟨"hi", [], false, some "m1"⟩ ⟨[], 0, 0⟩
    ⟨false, .ok ["x"], true⟩ (by decide) (by decide)

/-- C9: a non-edit submission stores the draft verbatim — the `addDoc`
content and the HTTP `prompt` field are the raw `prompt`, not its trimmed
form — even though the precondition only checked the trimmed draft. -/
theorem addOrUpdateMessage_raw_prompt (uid : String) (st : ComponentState)
    (store : Store) (env : Env) (h : jsTrim st.prompt ≠ "")
    (hedit : st.editId = none) :
    Effect.storeAdd ⟨"user", st.prompt, uid, .server, .server⟩
      ∈ (addOrUpdateMessage (some uid) st store env).2.2
    ∧ (env.userWriteOk = true →
        Effect.httpPost "POST" "/api/chat" ⟨st.prompt, takeLast 5 st.messages⟩
          ∈ (addOrUpdateMessage (some uid) st store env).2.2) := by
  rcases hw : env.userWriteOk <;>
    rcases hf : env.fetch with ⟨_ | ⟨c, cs⟩⟩ | _ <;>
    rcases ha : env.assistantWriteOk <;>
    simp [addOrUpdateMessage, afterUserWrite, h, hedit, hw, hf, ha]

/-- Witness for C9: the draft `" hi "` (whitespace around text) differs from
its trimmed form yet is written to the store and sent to the endpoint
verbatim. -/
theorem addOrUpdateMessage_raw_prompt_witness :
    jsTrim " hi " ≠ " hi "
    ∧ Effect.storeAdd ⟨"user", " hi ", "u1", .server, .server⟩
        ∈ (addOrUpdateMessage (some "u1") ⟨" hi ", [], false, none⟩ ⟨[], 0, 0⟩
          ⟨true, .ok ["Hi"], true⟩).2.2
    ∧ Effect.httpPost "POST" "/api/chat" ⟨" hi ", takeLast 5 ([] : List ChatMessage)⟩
        ∈ (addOrUpdateMessage (some "u1") ⟨" hi ", [], false, none⟩ ⟨[], 0, 0⟩
          ⟨true, .ok ["Hi"], true⟩).2.2 :=
  ⟨by decide,
   (addOrUpdateMessage_raw_prompt "u1" ⟨" hi ", [], false, none⟩ ⟨[], 0, 0⟩
      ⟨true, .ok ["Hi"], true⟩ (by decide) rfl).1,
   (addOrUpdateMessage_raw_prompt "u1" ⟨" hi ", [], false, none⟩ ⟨[], 0, 0⟩
      ⟨true, .ok ["Hi"], true⟩ (by decide) rfl).2 rfl⟩

/-- C10: `editMessage` on a message without an id copies its content into
the draft but records `null` (not the absent id) as the edit target, so the
following submission takes the create path: it issues no `updateDoc` and adds
a new `user`-role record. -/
theorem editMessage_absent_id (m : ChatMessage) (st : ComponentState)
    (uid : String) (store : Store) (env : Env) (hid : m.id = none)
    (h : jsTrim m.content ≠ "") :
    (editMessage m st).prompt = m.content
    ∧ (editMessage m st).editId = none
    ∧ countE Effect.isStoreUpdate
        (addOrUpdateMessage (some uid) (editMessage m st) store env).2.2 = 0
    ∧ Effect.storeAdd ⟨"user", m.content, uid, .server, .server⟩
        ∈ (addOrUpdateMessage (some uid) (editMessage m st) store env).2.2 := by
  have h1 : editMessage m st = { st with prompt := m.content, editId := none } := by
    simp [editMessage, hid]
  rw [h1]
  refine ⟨rfl, rfl, ?_, ?_⟩ <;>
    rcases hw : env.userWriteOk <;>
    rcases hf : env.fetch with ⟨_ | ⟨c, cs⟩⟩ | _ <;>
    rcases ha : env.assistantWriteOk <;>
    simp [addOrUpdateMessage, afterUserWrite, h, hw, hf, ha, countE,
      Effect.isStoreUpdate, List.filter]

/-- Witness for C10: editing an id-less message `"hey"` and submitting
issues no update and one fresh user-record add. -/
theorem editMessage_absent_id_witness :
    (editMessage ⟨none, "user", "hey", some "t", some (some "t")⟩
        ⟨"", [], false, some "zzz"⟩).prompt = "hey"
    ∧ (editMessage ⟨none, "user", "hey", some "t", some (some "t")⟩
        ⟨"", [], false, some "zzz"⟩).editId = none
    ∧ countE Effect.isStoreUpdate
        (addOrUpdateMessage (some "u1")
          (editMessage ⟨none, "user", "hey", some "t", some (some "t")⟩
            ⟨"", [], false, some "zzz"⟩) ⟨[], 0, 0⟩ ⟨true, .ok ["Hi"], true⟩).2.2 = 0
    ∧ Effect.storeAdd ⟨"user", "hey", "u1", .server, .server⟩
        ∈ (addOrUpdateMessage (some "u1")
          (editMessage ⟨none, "user", "hey", some "t", some (some "t")⟩
            ⟨"", [], false, some "zzz"⟩) ⟨[], 0, 0⟩ ⟨true, .ok ["Hi"], true⟩).2.2 :=
  editMessage_absent_id ⟨none, "user", "hey", some "t", some (some "t")⟩
    ⟨"", [], false, some "zzz"⟩ "u1" ⟨[], 0, 0⟩ ⟨true, .ok ["Hi"], true⟩ rfl (by decide)

/-- C4 fails on the code: after mounting with user `"u1"` and unmounting,
the `onSnapshot` listener is still active — `useEffect` received the Promise
returned by the async `fetchMessages`, not the `() => unsubscribe()` closure,
so no cleanup was registered — and a snapshot fired for `"u1"` still reaches
`setMessages`; changing the user to `"u2"` likewise leaves the stale `"u1"`
listener running alongside the new one. -/
theorem subscription_never_torn_down :
    listenersAfterMountUnmount (some "u1") = ["u1"]
    ∧ snapshotReachesState (listenersAfterMountUnmount (some "u1")) "u1" = true
    ∧ listenersAfterUserChange (some "u1") (some "u2") = ["u1", "u2"] := by decide

/-- C6: for every store content (hence for every order in which the
underlying documents may sit in the collection), the snapshot the query
`where userId == uid, orderBy createdAt asc` delivers produces a displayed
message list whose creation times are pairwise non-decreasing, and that list
is exactly the order-preserving image of the snapshot's documents. -/
theorem displayedMessages_sorted (s : Store) (uid : String) :
    List.Pairwise tsLe (displayedTimes s uid)
    ∧ displayedMessages s uid = (runQuery s uid).map toChatMessage := by
  constructor
  · have hs : List.Sorted docLe (runQuery s uid) :=
      List.sorted_insertionSort docLe _
    exact List.Pairwise.map StoreDoc.createdAt (fun a b hab => hab) hs
  · rfl

/-- C7: an edit-mode submission (target `eid`, all awaited steps succeeding,
server clock ahead of every stored timestamp) maps the old collection
through `updateFn eid prompt now` — which changes only the `content` and
`updatedAt` of the document with id `eid` and nothing of any other document —
and appends exactly one fresh assistant record at the tail; that record's
creation time is strictly later than every pre-existing one, so it sorts
last in the displayed history rather than next to the edited message. -/
theorem addOrUpdateMessage_edit_frame (uid : String) (st : ComponentState)
    (store : Store) (env : Env) (eid c : String) (cs : List String)
    (h : jsTrim st.prompt ≠ "") (hedit : st.editId = some eid)
    (hw : env.userWriteOk = true) (hf : env.fetch = .ok (c :: cs))
    (ha : env.assistantWriteOk = true)
    (hclock : ∀ d ∈ store.docs, tsLt d.createdAt (some store.now)) :
    (addOrUpdateMessage (some uid) st store env).2.1.docs =
        store.docs.map (updateFn eid st.prompt store.now)
          ++ [⟨toString store.nextId, "assistant", c, uid,
               some (store.now + 1), some (store.now + 1)⟩]
    ∧ (∀ d ∈ store.docs,
        (updateFn eid st.prompt store.now d).id = d.id
        ∧ (updateFn eid st.prompt store.now d).role = d.role
        ∧ (updateFn eid st.prompt store.now d).createdAt = d.createdAt
        ∧ (updateFn eid st.prompt store.now d).userId = d.userId)
    ∧ (∀ d ∈ store.docs, d.id = eid →
        (updateFn eid st.prompt store.now d).content = st.prompt
        ∧ (updateFn eid st.prompt store.now d).updatedAt = some store.now)
    ∧ (∀ d ∈ store.docs, tsLt d.createdAt (some (store.now + 1))) := by
  refine ⟨?_, ?_, ?_, ?_⟩
  · simp [addOrUpdateMessage, afterUserWrite, h, hedit, hw, hf, ha,
      Store.applyUpdate, Store.applyAdd]
  · intro d _
    unfold updateFn
    split <;> simp
  · intro d _ hid
    simp [updateFn, hid]
  · intro d hd
    have hlt := hclock d hd
    rcases hdc : d.createdAt with _ | t
    · simp [tsLt]
    · rw [hdc] at hlt
      simp only [tsLt] at hlt ⊢
      omega

/-- Witness for C7: editing `"m1"` in a two-document history rewrites only
its content and update time and appends the fresh assistant record after the
untouched `"m2"`. -/
theorem addOrUpdateMessage_edit_frame_witness :
    (addOrUpdateMessage (some "u1") ⟨"new", [], false, some "m1"⟩
        ⟨[⟨"m1", "user", "old", "u1", some 1, some 1⟩,
          ⟨"m2", "assistant", "r", "u1", some 2, some 2⟩], 5, 3⟩
        ⟨true, .ok ["Reply"], true⟩).2.1.docs =
      [⟨"m1", "user", "old", "u1", some 1, some 1⟩,
       ⟨"m2", "assistant", "r", "u1", some 2, some 2⟩].map (updateFn "m1" "new" 5)
        ++ [⟨toString (3 : Nat), "assistant", "Reply", "u1", some 6, some 6⟩] :=
  (addOrUpdateMessage_edit_frame "u1" ⟨"new", [], false, some "m1"⟩
    ⟨[⟨"m1", "user", "old", "u1", some 1, some 1⟩,
      ⟨"m2", "assistant", "r", "u1", some 2, some 2⟩], 5, 3⟩
    ⟨true, .ok ["Reply"], true⟩ "m1" "Reply" [] (by decide) rfl rfl rfl rfl
    (by decide)).1

/-- Counterexample to C8 as stated: in a reachable state (one message built
by the snapshot callback), the remote call's context entry serializes with
fields `id, role, content, createdAt, updatedAt` — `JSON.stringify` receives
the full local `ChatMessage`, since `messages.slice(-5)` does not project to
`{role, content}`. -/
theorem addOrUpdateMessage_context_entry_shape :
    Effect.httpPost "POST" "/api/chat"
        ⟨"next", [toChatMessage ⟨"d1", "user", "hey", "u1", some 1, some 1⟩]⟩
      ∈ (addOrUpdateMessage (some "u1")
          ⟨"next", snapshotToMessages [⟨"d1", "user", "hey", "u1", some 1, some 1⟩],
            false, none⟩
          ⟨[⟨"d1", "user", "hey", "u1", some 1, some 1⟩], 2, 1⟩
          ⟨true, .ok ["ok"], true⟩).2.2
    ∧ chatMessageJsonFields (toChatMessage ⟨"d1", "user", "hey", "u1", some 1, some 1⟩) =
        ["id", "role", "content", "createdAt", "updatedAt"]
    ∧ chatMessageJsonFields (toChatMessage ⟨"d1", "user", "hey", "u1", some 1, some 1⟩) ≠
        ["role", "content"] := by decide

/-- C8 as amended: when the precondition passes and the user-message write
succeeds, the handler makes exactly one remote call, a `POST` to `/api/chat`
whose body is `{ prompt: the current draft, messages: the at most 5 trailing
entries of the pre-submission in-memory list }`, each entry passed through
verbatim as a full local `ChatMessage` (carrying `role` and `content`
alongside `id`, `createdAt`, `updatedAt`); and every remote call of the
invocation is that one. -/
theorem addOrUpdateMessage_http_request (uid : String) (st : ComponentState)
    (store : Store) (env : Env) (h : jsTrim st.prompt ≠ "")
    (hw : env.userWriteOk = true) :
    countE Effect.isHttp (addOrUpdateMessage (some uid) st store env).2.2 = 1
    ∧ Effect.httpPost "POST" "/api/chat" ⟨st.prompt, takeLast 5 st.messages⟩
        ∈ (addOrUpdateMessage (some uid) st store env).2.2
    ∧ (∀ mth url b,
        Effect.httpPost mth url b ∈ (addOrUpdateMessage (some uid) st store env).2.2 →
        mth = "POST" ∧ url = "/api/chat"
          ∧ b = ⟨st.prompt, takeLast 5 st.messages⟩) := by
  rcases hedit : st.editId with _ | eid <;>
    rcases hf : env.fetch with ⟨_ | ⟨c, cs⟩⟩ | _ <;>
    rcases ha : env.assistantWriteOk <;>
    simp [addOrUpdateMessage, afterUserWrite, h, hedit, hw, hf, ha, countE,
      Effect.isHttp, List.filter]

/-- Witness for the amended C8: with a six-entry history, the single call
posts the draft and exactly the five trailing entries. -/
theorem addOrUpdateMessage_http_request_witness :
    countE Effect.isHttp
        (addOrUpdateMessage (some "u1")
          ⟨"q", snapshotToMessages
              [⟨"a", "user", "1", "u1", some 1, some 1⟩,
               ⟨"b", "assistant", "2", "u1", some 2, some 2⟩,
               ⟨"c", "user", "3", "u1", some 3, some 3⟩,
               ⟨"d", "assistant", "4", "u1", some 4, some 4⟩,
               ⟨"e", "user", "5", "u1", some 5, some 5⟩,
               ⟨"f", "assistant", "6", "u1", some 6, some 6⟩],
            false, none⟩
          ⟨[], 7, 6⟩ ⟨true, .ok ["ok"], true⟩).2.2 = 1
    ∧ Effect.httpPost "POST" "/api/chat"
        ⟨"q", takeLast 5 (snapshotToMessages
            [⟨"a", "user", "1", "u1", some 1, some 1⟩,
             ⟨"b", "assistant", "2", "u1", some 2, some 2⟩,
             ⟨"c", "user", "3", "u1", some 3, some 3⟩,
             ⟨"d", "assistant", "4", "u1", some 4, some 4⟩,
             ⟨"e", "user", "5", "u1", some 5, some 5⟩,
             ⟨"f", "assistant", "6", "u1", some 6, some 6⟩])⟩
        ∈ (addOrUpdateMessage (some "u1")
          ⟨"q", snapshotToMessages
              [⟨"a", "user", "1", "u1", some 1, some 1⟩,
               ⟨"b", "assistant", "2", "u1", some 2, some 2⟩,
               ⟨"c", "user", "3", "u1", some 3, some 3⟩,
               ⟨"d", "assistant", "4", "u1", some 4, some 4⟩,
               ⟨"e", "user", "5", "u1", some 5, some 5⟩,
               ⟨"f", "assistant", "6", "u1", some 6, some 6⟩],
            false, none⟩
          ⟨[], 7, 6⟩ ⟨true, .ok ["ok"], true⟩).2.2 :=
  ⟨(addOrUpdateMessage_http_request "u1" _ ⟨[], 7, 6⟩ ⟨true, .ok ["ok"], true⟩
      (by decide) rfl).1,
   (addOrUpdateMessage_http_request "u1" _ ⟨[], 7, 6⟩ ⟨true, .ok ["ok"], true⟩
      (by decide) rfl).2.1⟩

end ChatApp
